import Mathlib

/-!
Shallow embedding of the Telegram bot `src/zepp.py` (Web3 Promotion Hub Bot).

The SQLite database `web3_bot.db` is modelled as an explicit record of the
four tables created by `init_db`.  Timestamps (`submission_date`, `post_date`)
are not modelled; `AUTOINCREMENT` row ids are modelled by an explicit
`nextServiceId` counter and by explicit `id` fields.  Handlers are pure
functions from the database (plus the per-user `context.user_data` session
flag where relevant) to a new database together with a description of the
messages sent; Python exceptions that escape a handler are modelled with
`Except PyError`.
-/

namespace Zepp

/-- A row of the `projects` table (`init_db`, src/zepp.py lines 41-48).
`votes INTEGER DEFAULT 0` is the denormalized counter. -/
structure Project where
  id : Nat
  name : String
  description : Option String
  votes : Nat
  submitted_by : Option Nat
  deriving Repr, DecidableEq

/-- A row of the `services` table (src/zepp.py lines 50-58).
`is_active BOOLEAN DEFAULT 1`; `price TEXT` is never set by any insert. -/
structure Service where
  id : Nat
  user_id : Nat
  service_type : String
  description : String
  price : Option String
  is_active : Bool
  deriving Repr, DecidableEq

/-- The database state: the four tables of `init_db` plus the autoincrement
counter for the `services` table.  The `votes` table rows are
`(user_id, project_id)` pairs with a composite primary key. -/
structure DB where
  projects : List Project
  services : List Service
  votes : List (Nat × Nat)
  wallets : List (String × String)
  nextServiceId : Nat
  deriving Repr, DecidableEq

/-- A database in which the four tables exist but hold no rows: the state of
`web3_bot.db` right after the `CREATE TABLE` statements run on a fresh file. -/
def emptyDB : DB :=
  { projects := [], services := [], votes := [], wallets := [], nextServiceId := 1 }

/-- The two wallet rows seeded by `init_db` (src/zepp.py lines 74-78). -/
def seedWallets : List (String × String) :=
  [("BTC", "1A1zP1eP5QGefi2DMPTfTL5SLmv7DivfNa"),
   ("ETH", "0x742d35Cc6634C0532925a3b844Bc454e4438f44e")]

/-- Embeds `init_db` (src/zepp.py lines 37-78): the `CREATE TABLE IF NOT EXISTS`
script leaves existing rows untouched (modelled by `DB` always having its
tables), then the two sample wallets are inserted only when
`SELECT 1 FROM wallets LIMIT 1` returns no row, i.e. the table is empty. -/
def init_db (db : DB) : DB :=
  if db.wallets.isEmpty then { db with wallets := seedWallets } else db

/-- Embeds `show_wallets` (src/zepp.py lines 318-327): `SELECT coin, address FROM
wallets`, every row, in insertion order. -/
def show_wallets (db : DB) : List (String × String) :=
  db.wallets

/-- The rendered reply of `show_wallets`. -/
def show_wallets_text (db : DB) : String :=
  "🔐 Verified Wallets:\n\n" ++
    String.intercalate ("\n")
      ((show_wallets db).map (fun w => w.1 ++ ": <code>" ++ w.2 ++ "</code>"))

/-- The reply that `process_vote` sends to the voting user. -/
inductive VoteReply where
  | counted
  | alreadyVoted
  deriving Repr, DecidableEq

/-- Embeds `process_vote` (src/zepp.py lines 186-212).  The `INSERT INTO votes`
raises `sqlite3.IntegrityError` exactly when a row with the same
`(user_id, project_id)` primary key already exists; that exception is caught
before the `UPDATE` runs, and the user gets the already-voted reply.
Otherwise the vote row is inserted, `UPDATE projects SET votes = votes + 1
WHERE id = ?` bumps every row whose `id` matches (zero rows when no such
project exists), and the user gets the success reply. -/
def process_vote (db : DB) (userId : Nat) (projectId : Nat) : DB × VoteReply :=
  if (userId, projectId) ∈ db.votes then
    (db, VoteReply.alreadyVoted)
  else
    ({ db with
        votes := db.votes ++ [(userId, projectId)],
        projects := db.projects.map (fun p =>
          if p.id = projectId then { p with votes := p.votes + 1 } else p) },
     VoteReply.counted)

/-- Number of rows of the `votes` table whose `project_id` is `pid`. -/
def votesFor (db : DB) (pid : Nat) : Nat :=
  (db.votes.filter (fun v => v.2 == pid)).length

/-- The denormalized counter of the project row with id `pid`, when such a
row exists. -/
def projectVotes (db : DB) (pid : Nat) : Option Nat :=
  (db.projects.find? (fun p => p.id == pid)).map (fun p => p.votes)

/-- The `SERVICE_TYPES` dict (src/zepp.py lines 82-90), as an association
list in source order. -/
def SERVICE_TYPES : List (String × String) :=
  [("shilling", "📢 Shilling Services"),
   ("hype", "🚀 Organic Hype Building"),
   ("mod", "🛡️ Community Moderation"),
   ("cm", "👥 Community Management"),
   ("dev", "💻 Web3 Development"),
   ("design", "🎨 NFT/Web3 Design"),
   ("other", "🔮 Other Web3 Services")]

/-- Dict lookup `SERVICE_TYPES[key]`; `none` models the `KeyError` case. -/
def serviceTypeLookup (key : String) : Option String :=
  (SERVICE_TYPES.find? (fun e => e.1 == key)).map (fun e => e.2)

/-- A Python exception escaping a handler. -/
inductive PyError where
  /-- Raised by `int` on a string that is not an integer literal. -/
  | valueError (text : String)
  /-- Raised by a dict lookup on a missing key. -/
  | keyError (key : String)
  /-- Raised by an attribute access on `None`, such as
  `update.message.reply_text` when `update.message` is `None`. -/
  | attributeError (attr : String)
  deriving Repr, DecidableEq

/-- Models Python `s.startswith(pre)`: the first `pre.length` characters of
`s` are exactly `pre`. -/
def pyStartsWith (s pre : String) : Bool :=
  s.take pre.length == pre

/-- Value of a list of decimal digit characters, most significant first. -/
def digitsVal : List Char → Nat → Nat
  | [], acc => acc
  | c :: cs, acc => digitsVal cs (acc * 10 + (c.toNat - 48))

/-- Models Python `int(s)` on a callback-data suffix: a nonempty string of
decimal digits parses to its value, anything else raises `ValueError`
(`none`).  Project ids rendered into `vote_<id>` buttons are the decimal
digit strings of the `AUTOINCREMENT` keys, so signs, spaces and underscores
— which CPython `int` would also accept — never occur and are not
modelled. -/
def pyInt? (s : String) : Option Nat :=
  if s.data ≠ [] ∧ s.data.all Char.isDigit then some (digitsVal s.data 0) else none

/-- The service row built by the `INSERT INTO services (user_id,
service_type, description)` of `submit_service`: `price` stays NULL and
`is_active` takes its schema default 1. -/
def mkServiceRow (rowId : Nat) (userId : Nat) (serviceType description : String) : Service :=
  { id := rowId, user_id := userId, service_type := serviceType,
    description := description, price := none, is_active := true }

/-- The admin-notification loop of `submit_service` (src/zepp.py lines
106-116): each `send_message` sits in its own `try`/`except`, so a failed
send (modelled by `sendFails`) is logged and the loop continues with the
next admin.  The result records, in order, each admin attempted and whether
the send succeeded. -/
def notifyAdmins : List Nat → (Nat → Bool) → List (Nat × Bool)
  | [], _ => []
  | a :: rest, sendFails => (a, !sendFails a) :: notifyAdmins rest sendFails

/-- Embeds `submit_service` (src/zepp.py lines 97-116): insert the service row
(committed when the `with` block exits, before any notification is sent),
then attempt to notify every configured admin individually. -/
def submit_service (db : DB) (admins : List Nat) (sendFails : Nat → Bool)
    (userId : Nat) (serviceType description : String) : DB × List (Nat × Bool) :=
  let db' : DB := { db with
      services := db.services ++ [mkServiceRow db.nextServiceId userId serviceType description],
      nextServiceId := db.nextServiceId + 1 }
  (db', notifyAdmins admins sendFails)

/-- What `button_handler` did after acknowledging the press with
`query.answer()` (which is sent in every case, before dispatch). -/
inductive BHAction where
  /-- Means `process_vote` ran for this project id and sent this reply. -/
  | votedOnProject (projectId : Nat) (reply : VoteReply)
  /-- Means `edit_message_text` prompted for a description and
  `user_data` key `awaiting_service` was set to this category. -/
  | promptedForService (serviceType : String)
  | showedServiceMenu
  | showedVoteMenu
  | showedTrends
  | showedWallets
  /-- No branch matched: the handler fell through and returned. -/
  | ignored
  deriving Repr, DecidableEq

/-- Embeds `button_handler` (src/zepp.py lines 123-149).  The branches are tested
in source order: the `vote_` prefix test first, so the literal
`vote_menu` is captured by that branch and `int` applied to `menu` raises
`ValueError`; likewise `service_menu` is captured by the
`service_` prefix branch, where the dict lookup of `menu` raises
`KeyError`.  The slice `data[5:]` is `dat.drop 5` and `int` is `pyInt?`.  The function takes and returns
the per-user session flag `user_data` key `awaiting_service`. -/
def button_handler (db : DB) (sess : Option String) (dat : String) (userId : Nat) :
    Except PyError (DB × Option String × BHAction) :=
  if pyStartsWith dat ("vote_") then
    match pyInt? (dat.drop 5) with
    | some pid =>
        let r := process_vote db userId pid
        Except.ok (r.1, sess, BHAction.votedOnProject pid r.2)
    | none => Except.error (PyError.valueError (dat.drop 5))
  else if pyStartsWith dat ("service_") then
    match serviceTypeLookup (dat.drop 8) with
    | some _ => Except.ok (db, some (dat.drop 8), BHAction.promptedForService (dat.drop 8))
    | none => Except.error (PyError.keyError (dat.drop 8))
  else if dat = "service_menu" then Except.ok (db, sess, BHAction.showedServiceMenu)
  else if dat = "vote_menu" then Except.ok (db, sess, BHAction.showedVoteMenu)
  else if dat = "trends" then Except.ok (db, sess, BHAction.showedTrends)
  else if dat = "wallets" then Except.ok (db, sess, BHAction.showedWallets)
  else Except.ok (db, sess, BHAction.ignored)

/-- The payloads the spec calls recognized: a `vote_<id>` tag (numeric id),
a `service_<category>` tag, or one of the four literal tags. -/
def recognizedTag (dat : String) : Bool :=
  (pyStartsWith dat ("vote_") && (pyInt? (dat.drop 5)).isSome) ||
  pyStartsWith dat ("service_") ||
  dat = "service_menu" || dat = "vote_menu" || dat = "trends" || dat = "wallets"

/-- Embeds `handle_service_description` (src/zepp.py lines 168-179): with no
pending `awaiting_service` flag the handler returns at once (no insert, no
reply); with a pending category it submits the service with the message
text as description, deletes the flag, and replies with the confirmation
(the returned `Bool`). -/
def handle_service_description (db : DB) (sess : Option String) (admins : List Nat)
    (sendFails : Nat → Bool) (userId : Nat) (text : String) : DB × Option String × Bool :=
  match sess with
  | none => (db, none, false)
  | some serviceType =>
      ((submit_service db admins sendFails userId serviceType text).1, none, true)

/-- The reply of `promote_service`. -/
inductive PromoteReply where
  /-- The category-selection keyboard was shown. -/
  | menuShown
  /-- The submission confirmation was sent. -/
  | confirmed
  deriving Repr, DecidableEq

/-- Embeds `promote_service` (src/zepp.py lines 301-315): with no arguments show
the category menu and insert nothing; otherwise submit a service with the
fixed category `custom` and the arguments joined by single spaces
(a single-space join of `context.args`). -/
def promote_service (db : DB) (admins : List Nat) (sendFails : Nat → Bool)
    (userId : Nat) (args : List String) : DB × PromoteReply :=
  if args.isEmpty then (db, PromoteReply.menuShown)
  else
    ((submit_service db admins sendFails userId ("custom") (String.intercalate (" ") args)).1,
     PromoteReply.confirmed)

/-- One entry of the CoinGecko response.  The numeric formatting of
`current_price` and `price_change_percentage_24h` (Python floats) is
abstracted as pre-rendered text: floating point is outside the shallow
embedding, and no claim depends on it. -/
structure Coin where
  symbol : String
  priceText : String
  changeText : String
  deriving Repr, DecidableEq

/-- The outcome of the `requests.get` call of `crypto_trends`: a timeout, a
network-level failure, or a response with a status code and parsed body.
Timeouts and connection errors are `requests.RequestException`s. -/
inductive HttpResult where
  | timeout
  | connectionError
  | response (status : Nat) (coins : List Coin)
  deriving Repr, DecidableEq

/-- One formatted line of the trends reply. -/
def formatCoin (c : Coin) : String :=
  c.symbol.toUpper ++ ": $" ++ c.priceText ++ " (" ++ c.changeText ++ "%)"

/-- The fallback reply of `crypto_trends` (src/zepp.py lines 266-269). -/
def trendsFallbackText : String :=
  "⚠️ Couldn\u0027t fetch trends. Try again later.\nMeanwhile check /wallets or /vote"

/-- Models the python-telegram-bot `Update` object as far as the handlers
use it: a textual command arrives as a message update (`update.message` is
set), while an inline button press arrives as a callback-query update, for
which `update.message` is `None`.  `button_handler` passes its own `update`
on to `crypto_trends`, `vote_project` and `show_wallets` (src/zepp.py lines
144-149), so those handlers can run with `update.message = None`. -/
inductive Update where
  /-- A message update: `update.message` is present. -/
  | message
  /-- A callback-query update (button press): `update.message` is `None`. -/
  | callbackQuery
  deriving Repr, DecidableEq

/-- Models `update.message.reply_text(text)`: delivers `text` on a message
update; on a callback-query update `update.message` is `None`, so the
attribute access raises `AttributeError`. -/
def replyText (upd : Update) (text : String) : Except PyError String :=
  match upd with
  | Update.message => Except.ok text
  | Update.callbackQuery => Except.error (PyError.attributeError ("reply_text"))

/-- Embeds `crypto_trends` (src/zepp.py lines 239-269): `raise_for_status()`
raises `requests.HTTPError` on a 4xx or 5xx status; that, a timeout and a
connection error are all `requests.RequestException` and are caught by the
`except` clause, which sends the fallback text with
`update.message.reply_text`.  On success the five coins are formatted into
the trends reply, again sent with `update.message.reply_text`.  Either send
raises `AttributeError` when the handler was reached from a button press
(`update.message` is `None`); `AttributeError` is not a
`requests.RequestException`, so nothing catches it — not even in the
failure branch, where it is raised inside the `except` clause itself. -/
def crypto_trends (upd : Update) (r : HttpResult) : Except PyError String :=
  match r with
  | HttpResult.timeout => replyText upd trendsFallbackText
  | HttpResult.connectionError => replyText upd trendsFallbackText
  | HttpResult.response status coins =>
      if 400 ≤ status ∧ status < 600 then replyText upd trendsFallbackText
      else
        replyText upd ("🔥 Top 5 Cryptocurrencies:\n\n" ++
          String.intercalate ("\n") (coins.map formatCoin) ++ "\n\n📊 24h price change")

/-- Projects loaded into the `projects` table with the schema defaults:
`AUTOINCREMENT` ids 1, 2, …, `votes INTEGER DEFAULT 0`. -/
def mkProjects (names : List String) : List Project :=
  names.enum.map (fun e =>
    { id := e.1 + 1, name := e.2, description := none, votes := 0, submitted_by := none })

/-- A freshly initialized database into which project rows have been loaded
with the schema defaults (the only way a project row can appear: the code
references `/addproject` but binds no handler for it, so any project row
starts with the `votes` default 0). -/
def initialState (names : List String) : DB :=
  { init_db emptyDB with projects := mkProjects names }

/-- A sequence of `process_vote` calls, applied in order. -/
def applyVotes (db : DB) (vs : List (Nat × Nat)) : DB :=
  vs.foldl (fun d uv => (process_vote d uv.1 uv.2).1) db

/-- The invariant of §3 of the spec: the denormalized counter of every project row
equals the number of `votes` rows for that project. -/
def VotesConsistent (db : DB) : Prop :=
  ∀ p ∈ db.projects, p.votes = votesFor db p.id

end Zepp

namespace Zepp

/-- C1: a `(user, project)` pair already present in the `votes` table makes
`process_vote` reply "already voted" and leave the database — in particular
the `votes` table and every project counter — unchanged. -/
theorem process_vote_duplicate_rejected (db : DB) (u p : Nat)
    (h : (u, p) ∈ db.votes) :
    process_vote db u p = (db, VoteReply.alreadyVoted) := by
  simp [process_vote, h]

/-- Witness for C1 at a concrete database. -/
theorem process_vote_duplicate_rejected_witness :
    (7, 1) ∈ (({ emptyDB with votes := [(7, 1)] } : DB)).votes ∧
      process_vote ({ emptyDB with votes := [(7, 1)] } : DB) 7 1
        = (({ emptyDB with votes := [(7, 1)] } : DB), VoteReply.alreadyVoted) :=
  ⟨by decide,
   process_vote_duplicate_rejected ({ emptyDB with votes := [(7, 1)] } : DB) 7 1 (by decide)⟩

/-- C6: `init_db` is idempotent, and reading the wallets right after
initializing a fresh database returns exactly the BTC and ETH seed rows. -/
theorem init_db_idempotent_and_seeded :
    (∀ db : DB, init_db (init_db db) = init_db db) ∧
      (∀ db : DB, db.wallets ≠ [] → init_db db = db) ∧
      show_wallets (init_db emptyDB) = seedWallets := by
  refine ⟨?_, ?_, rfl⟩
  · intro db
    by_cases h : db.wallets.isEmpty <;> simp [init_db, h, seedWallets]
  · intro db h
    unfold init_db
    rw [if_neg (by simpa [List.isEmpty_iff] using h)]

/-- The counter `UPDATE` of `process_vote` touches no row when no project
has the given id. -/
theorem bump_map_noop (l : List Project) (p : Nat) (h : ∀ q ∈ l, q.id ≠ p) :
    l.map (fun q => if q.id = p then { q with votes := q.votes + 1 } else q) = l := by
  induction l with
  | nil => rfl
  | cons a t ih =>
    simp only [List.map_cons]
    rw [if_neg (h a (List.mem_cons_self a t)),
      ih (fun q hq => h q (List.mem_cons_of_mem a hq))]

/-- C10: when no project row has id `p` and the user has not voted for `p`,
`process_vote` still inserts the vote row and replies with the success
message; the counter update matches no row, so the `projects` table is
unchanged and the vote is recorded against a nonexistent project. -/
theorem process_vote_nonexistent_project (db : DB) (u p : Nat)
    (hnew : (u, p) ∉ db.votes) (habsent : ∀ q ∈ db.projects, q.id ≠ p) :
    process_vote db u p
      = ({ db with votes := db.votes ++ [(u, p)] }, VoteReply.counted) := by
  simp [process_vote, hnew, bump_map_noop db.projects p habsent]

/-- Witness for C6: a database whose wallets table already has a row is
left untouched by `init_db`. -/
theorem init_db_idempotent_and_seeded_witness :
    init_db ({ emptyDB with wallets := [("DOGE", "D5oge")] }) 
      = { emptyDB with wallets := [("DOGE", "D5oge")] } :=
  init_db_idempotent_and_seeded.2.1 ({ emptyDB with wallets := [("DOGE", "D5oge")] })
    (by decide)

/-- Witness for C10: voting for project 5 on a fresh database (which holds
no projects at all) records the vote and reports success. -/
theorem process_vote_nonexistent_project_witness :
    (3, 5) ∉ (init_db emptyDB).votes ∧
      process_vote (init_db emptyDB) 3 5
        = ({ init_db emptyDB with votes := [(3, 5)] }, VoteReply.counted) :=
  ⟨by decide,
   process_vote_nonexistent_project (init_db emptyDB) 3 5 (by decide) (by decide)⟩

/-- Helper: the notification loop attempts every admin, in order, recording
for each whether the send succeeded. -/
theorem notifyAdmins_spec (admins : List Nat) (sf : Nat → Bool) :
    notifyAdmins admins sf = admins.map (fun a => (a, !sf a)) := by
  induction admins with
  | nil => rfl
  | cons a t ih => simp [notifyAdmins, ih]

/-- C7: during service submission, every configured admin is attempted
exactly once in order no matter which sends fail, a failure is recorded
(logged) for that admin alone, and the inserted service row — indeed the
whole database — is the same as when every send succeeds. -/
theorem submit_service_notifications_independent (db : DB) (admins : List Nat)
    (sf : Nat → Bool) (u : Nat) (st d : String) :
    (submit_service db admins sf u st d).2 = admins.map (fun a => (a, !sf a)) ∧
      ((submit_service db admins sf u st d).2).map Prod.fst = admins ∧
      (submit_service db admins sf u st d).1.services
        = db.services ++ [mkServiceRow db.nextServiceId u st d] ∧
      (submit_service db admins sf u st d).1
        = (submit_service db admins (fun _ => false) u st d).1 := by
  refine ⟨notifyAdmins_spec admins sf, ?_, rfl, rfl⟩
  rw [show (submit_service db admins sf u st d).2 = notifyAdmins admins sf from rfl,
    notifyAdmins_spec, List.map_map,
    show (Prod.fst ∘ fun a : Nat => (a, !sf a)) = id from rfl, List.map_id]

/-- C3 (failing part): the literal tags wired by `start` are captured by the
prefix branches tested first, so pressing the vote-menu button raises
`ValueError` and pressing the service-menu button raises `KeyError` instead
of showing the corresponding menu. -/
theorem button_handler_menu_literals_crash :
    button_handler (init_db emptyDB) none ("vote_menu") 7
        = Except.error (PyError.valueError ("menu")) ∧
      button_handler (init_db emptyDB) none ("service_menu") 7
        = Except.error (PyError.keyError ("menu")) :=
  ⟨rfl, rfl⟩

/-- C4 as stated is false: the tag `vote_abc` is none of the recognized
payloads (its suffix is not an id), yet `button_handler` raises `ValueError`
on it rather than silently ignoring it. -/
theorem button_handler_unrecognized_not_always_silent :
    ¬ (∀ (db : DB) (sess : Option String) (dat : String) (u : Nat),
        recognizedTag dat = false →
        button_handler db sess dat u = Except.ok (db, sess, BHAction.ignored)) := by
  intro hall
  have h := hall emptyDB none ("vote_abc") 1 (by decide)
  rw [show button_handler emptyDB none ("vote_abc") 1
      = Except.error (PyError.valueError ("abc")) from rfl] at h
  exact Except.noConfusion h

/-- C4 amended: a callback tag that starts with neither `vote_` nor
`service_` and is not `trends` or `wallets` (the literals `vote_menu` and
`service_menu` start with those prefixes) is silently ignored: no database
change, no session change, no reply beyond the acknowledgement, no error.
Malformed `vote_` or `service_` tags instead raise. -/
theorem button_handler_unmatched_tag_ignored (db : DB) (sess : Option String)
    (dat : String) (u : Nat) (h1 : pyStartsWith dat ("vote_") = false)
    (h2 : pyStartsWith dat ("service_") = false)
    (h3 : dat ≠ "trends") (h4 : dat ≠ "wallets") :
    button_handler db sess dat u = Except.ok (db, sess, BHAction.ignored) := by
  have h5 : dat ≠ "service_menu" := fun e => by subst e; exact absurd h2 (by decide)
  have h6 : dat ≠ "vote_menu" := fun e => by subst e; exact absurd h1 (by decide)
  simp [button_handler, h1, h2, h3, h4, h5, h6]

/-- Witness for the amended C4: the dead `find_services` tag of the start
menu falls through every branch. -/
theorem button_handler_unmatched_tag_ignored_witness :
    button_handler emptyDB none ("find_services") 9
      = Except.ok (emptyDB, none, BHAction.ignored) :=
  button_handler_unmatched_tag_ignored emptyDB none ("find_services") 9 (by decide)
    (by decide) (by decide) (by decide)

/-- C8 at its failing input: a trends request reached via the `trends`
inline button is a callback-query update, so on a timeout the `except`
clause itself raises `AttributeError` from `update.message.reply_text` —
no fallback text is sent and the error is unhandled.  On a `/trends`
command request (a message update) a timeout and a 500 status do produce
the fallback text, as the claim describes. -/
theorem crypto_trends_button_timeout_raises :
    crypto_trends Update.callbackQuery HttpResult.timeout
        = Except.error (PyError.attributeError ("reply_text")) ∧
      crypto_trends Update.message HttpResult.timeout
        = Except.ok trendsFallbackText ∧
      crypto_trends Update.message (HttpResult.response 500 [])
        = Except.ok trendsFallbackText :=
  ⟨rfl, rfl, rfl⟩

/-- C9: the promote command with a nonempty payload inserts exactly one
service row with category `custom` and the payload (the space-joined
arguments) as description, and confirms to the submitter; with no payload
it shows the category menu and inserts nothing. -/
theorem promote_service_behavior (db : DB) (admins : List Nat) (sf : Nat → Bool)
    (u : Nat) (args : List String) :
    (args ≠ [] →
      promote_service db admins sf u args
        = ({ db with
              services := db.services ++
                [mkServiceRow db.nextServiceId u ("custom")
                  (String.intercalate (" ") args)],
              nextServiceId := db.nextServiceId + 1 },
           PromoteReply.confirmed)) ∧
      (args = [] → promote_service db admins sf u args = (db, PromoteReply.menuShown)) := by
  constructor
  · intro hne
    cases args with
    | nil => exact absurd rfl hne
    | cons a t => rfl
  · intro he
    subst he
    rfl

/-- Witness for C9: the spec example submission. -/
theorem promote_service_behavior_witness :
    promote_service emptyDB [] (fun _ => false) 2 ["build", "me", "a", "dapp"]
      = ({ emptyDB with
            services := emptyDB.services ++
              [mkServiceRow emptyDB.nextServiceId 2 ("custom")
                (String.intercalate (" ") ["build", "me", "a", "dapp"])],
            nextServiceId := emptyDB.nextServiceId + 1 },
         PromoteReply.confirmed) :=
  (promote_service_behavior emptyDB [] (fun _ => false) 2 ["build", "me", "a", "dapp"]).1
    (by decide)

/-- Helper: a successful `SERVICE_TYPES` lookup means the key is one of the
seven configured categories. -/
theorem serviceTypeLookup_mem {cat label : String}
    (h : serviceTypeLookup cat = some label) : cat ∈ SERVICE_TYPES.map Prod.fst := by
  unfold serviceTypeLookup at h
  cases hf : SERVICE_TYPES.find? (fun e => e.1 == cat) with
  | none => rw [hf] at h; simp at h
  | some a =>
    have hm := List.mem_of_find?_eq_some hf
    have hp := List.find?_some hf
    have ha : a.1 = cat := by simpa using hp
    exact ha ▸ List.mem_map_of_mem Prod.fst hm

/-- C5: pressing a `service_<cat>` button for a configured category sets the
session flag to that category (and only prompts, changing no table); the
next free-text message inserts exactly one service row whose category is the
flagged one and whose description is the message text, and clears the flag;
a second free-text message with the flag now absent inserts nothing, changes
nothing and sends no reply. -/
theorem service_category_flow (db : DB) (sess : Option String) (admins : List Nat)
    (sf : Nat → Bool) (u : Nat) (cat label msg1 msg2 : String)
    (h : serviceTypeLookup cat = some label) :
    button_handler db sess ("service_" ++ cat) u
        = Except.ok (db, some cat, BHAction.promptedForService cat) ∧
      (handle_service_description db (some cat) admins sf u msg1).1.services
        = db.services ++ [mkServiceRow db.nextServiceId u cat msg1] ∧
      (handle_service_description db (some cat) admins sf u msg1).2.1 = none ∧
      handle_service_description (handle_service_description db (some cat) admins sf u msg1).1
          (handle_service_description db (some cat) admins sf u msg1).2.1 admins sf u msg2
        = ((handle_service_description db (some cat) admins sf u msg1).1, none, false) := by
  refine ⟨?_, rfl, rfl, rfl⟩
  have hmem : cat ∈ SERVICE_TYPES.map Prod.fst := serviceTypeLookup_mem h
  fin_cases hmem <;> rfl

/-- Witness for C5 with the `dev` category. -/
theorem service_category_flow_witness :
    button_handler emptyDB none ("service_" ++ "dev") 4
      = Except.ok (emptyDB, some ("dev"), BHAction.promptedForService ("dev")) :=
  (service_category_flow emptyDB none [] (fun _ => false) 4 ("dev") ("💻 Web3 Development")
    ("build dapps") ("second message") rfl).1

/-- Helper: one `process_vote` call preserves the counter invariant. -/
theorem process_vote_preserves_consistent (db : DB) (u pid : Nat)
    (h : VotesConsistent db) : VotesConsistent (process_vote db u pid).1 := by
  unfold process_vote
  by_cases hv : (u, pid) ∈ db.votes
  · rw [if_pos hv]; exact h
  · rw [if_neg hv]
    intro p hp
    simp only [List.mem_map] at hp
    obtain ⟨q, hq, rfl⟩ := hp
    have hq' := h q hq
    by_cases hid : q.id = pid
    · rw [if_pos hid]
      subst hid
      show q.votes + 1 = votesFor _ q.id
      simp [votesFor] at hq' ⊢
      exact hq'
    · rw [if_neg hid]
      show q.votes = votesFor _ q.id
      have hne : pid ≠ q.id := fun e => hid e.symm
      simp [votesFor] at hq' ⊢
      simp [hne]
      exact hq'

/-- Helper: `applyVotes` unfolds one call at a time. -/
theorem applyVotes_cons (db : DB) (v : Nat × Nat) (t : List (Nat × Nat)) :
    applyVotes db (v :: t) = applyVotes (process_vote db v.1 v.2).1 t := rfl

/-- Helper: any sequence of `process_vote` calls preserves the invariant. -/
theorem applyVotes_consistent (vs : List (Nat × Nat)) (db : DB)
    (h : VotesConsistent db) : VotesConsistent (applyVotes db vs) := by
  induction vs generalizing db with
  | nil => exact h
  | cons v t ih =>
    rw [applyVotes_cons]
    exact ih _ (process_vote_preserves_consistent db v.1 v.2 h)

/-- Helper: the initial state satisfies the invariant (all counters 0, no
vote rows). -/
theorem initialState_consistent (names : List String) :
    VotesConsistent (initialState names) := by
  intro p hp
  obtain ⟨e, he, rfl⟩ := List.mem_map.mp (show p ∈ mkProjects names from hp)
  rfl

/-- Helper: the counter bump never changes any project id. -/
theorem bump_preserves_ids (l : List Project) (pid : Nat) :
    (l.map (fun p => if p.id = pid then { p with votes := p.votes + 1 } else p)).map
        (fun p => p.id) = l.map (fun p => p.id) := by
  induction l with
  | nil => rfl
  | cons a t ih =>
    simp only [List.map_cons, ih]
    congr 1
    by_cases h : a.id = pid <;> simp [h]

/-- Helper: `process_vote` never changes the list of project ids. -/
theorem process_vote_ids (db : DB) (u pid : Nat) :
    (process_vote db u pid).1.projects.map (fun p => p.id)
      = db.projects.map (fun p => p.id) := by
  unfold process_vote
  by_cases hv : (u, pid) ∈ db.votes
  · rw [if_pos hv]
  · rw [if_neg hv]
    exact bump_preserves_ids db.projects pid

/-- Helper: no vote sequence changes the list of project ids. -/
theorem applyVotes_ids (vs : List (Nat × Nat)) (db : DB) :
    (applyVotes db vs).projects.map (fun p => p.id)
      = db.projects.map (fun p => p.id) := by
  induction vs generalizing db with
  | nil => rfl
  | cons v t ih => rw [applyVotes_cons, ih, process_vote_ids]

/-- Helper: a fresh vote is appended to the `votes` table. -/
theorem process_vote_votes_new (db : DB) (u pid : Nat) (h : (u, pid) ∉ db.votes) :
    (process_vote db u pid).1.votes = db.votes ++ [(u, pid)] := by
  unfold process_vote
  rw [if_neg h]

/-- Helper: distinct users voting for the same project all succeed, and the
`votes` table ends as the original rows plus one row per user, in order. -/
theorem applyVotes_all_new (pid : Nat) (us : List Nat) (db : DB) (hnd : us.Nodup)
    (hfresh : ∀ u ∈ us, (u, pid) ∉ db.votes) :
    (applyVotes db (us.map (fun u => (u, pid)))).votes
      = db.votes ++ us.map (fun u => (u, pid)) := by
  induction us generalizing db with
  | nil => simp [applyVotes]
  | cons a t ih =>
    rw [List.map_cons, applyVotes_cons]
    have ha : (a, pid) ∉ db.votes := hfresh a (List.mem_cons_self a t)
    have hv : (process_vote db a pid).1.votes = db.votes ++ [(a, pid)] :=
      process_vote_votes_new db a pid ha
    have hne : a ∉ t := (List.nodup_cons.mp hnd).1
    have hfresh' : ∀ u ∈ t, (u, pid) ∉ (process_vote db a pid).1.votes := by
      intro u hu
      rw [hv]
      intro hmem
      rcases List.mem_append.mp hmem with hmem1 | hmem2
      · exact hfresh u (List.mem_cons_of_mem a hu) hmem1
      · have hua : u = a := congrArg Prod.fst (List.mem_singleton.mp hmem2)
        exact hne (hua ▸ hu)
    rw [ih _ (List.nodup_cons.mp hnd).2 hfresh', hv, List.append_assoc]
    rfl

/-- Helper: every row of the per-user vote list matches the project filter. -/
theorem filter_map_self (us : List Nat) (pid : Nat) :
    ((us.map (fun u => (u, pid))).filter (fun v => v.2 == pid)).length = us.length := by
  induction us with
  | nil => rfl
  | cons a t ih => simp [ih]

/-- C2: starting from a freshly initialized database (with any set of
project rows loaded at their schema-default counter 0), after any sequence
of `process_vote` calls every project row's counter equals the number of
vote rows for that project; in particular, after `N` distinct users vote
for an existing project its counter reads exactly `N`. -/
theorem vote_counter_matches_vote_rows (names : List String) (vs : List (Nat × Nat)) :
    VotesConsistent (applyVotes (initialState names) vs) ∧
      (∀ (pid : Nat) (us : List Nat), us.Nodup →
        pid ∈ (initialState names).projects.map (fun p => p.id) →
        projectVotes (applyVotes (initialState names) (us.map (fun u => (u, pid)))) pid
          = some us.length) := by
  constructor
  · exact applyVotes_consistent vs (initialState names) (initialState_consistent names)
  · intro pid us hnd hpid
    have hcons : VotesConsistent (applyVotes (initialState names)
        (us.map (fun u => (u, pid)))) :=
      applyVotes_consistent _ _ (initialState_consistent names)
    have hids : (applyVotes (initialState names)
          (us.map (fun u => (u, pid)))).projects.map (fun p => p.id)
        = (initialState names).projects.map (fun p => p.id) := applyVotes_ids _ _
    have hpid' : pid ∈ (applyVotes (initialState names)
        (us.map (fun u => (u, pid)))).projects.map (fun p => p.id) := by
      rw [hids]; exact hpid
    obtain ⟨p0, hp0mem, hp0id⟩ := List.mem_map.mp hpid'
    have hsome : ((applyVotes (initialState names)
        (us.map (fun u => (u, pid)))).projects.find? (fun p => p.id == pid)).isSome :=
      List.find?_isSome.mpr ⟨p0, hp0mem, by simp [hp0id]⟩
    obtain ⟨q, hq⟩ := Option.isSome_iff_exists.mp hsome
    have hqmem := List.mem_of_find?_eq_some hq
    have hqid : q.id = pid := by simpa using List.find?_some hq
    have hvotesrows : (applyVotes (initialState names)
          (us.map (fun u => (u, pid)))).votes = us.map (fun u => (u, pid)) := by
      have h0 : (initialState names).votes = [] := rfl
      have h2 := applyVotes_all_new pid us (initialState names) hnd
        (by intro u hu; rw [h0]; simp)
      rw [h2, h0, List.nil_append]
    have hq' := hcons q hqmem
    unfold projectVotes
    rw [hq]
    show some q.votes = some us.length
    rw [show q.votes = votesFor _ q.id from hq', hqid]
    unfold votesFor
    rw [hvotesrows, filter_map_self]

/-- Witness for C2: two projects, three distinct voters for project 1. -/
theorem vote_counter_matches_vote_rows_witness :
    projectVotes (applyVotes (initialState ["Alpha", "Beta"])
        ([4, 5, 6].map (fun u => (u, 1)))) 1 = some 3 :=
  (vote_counter_matches_vote_rows ["Alpha", "Beta"] []).2 1 [4, 5, 6]
    (by decide) (by decide)

end Zepp
